import Mathlib

/-!
Verification of the HTTP status checker widget.

The development shallowly embeds the core logic of the repository:
the `useStatusHistory` hook (a 10-element rolling history buffer),
the `HttpStatusChecker.checkStatusCode` handler (input resolution via
numeric parse, URL probe and phrase lookup, followed by classification
into a category and a traffic-light colour), and the `urlRequest`
helper (the URL probe with its catch-all error recovery).

External collaborators are modelled explicitly: the network transport
(`fetch`) is a parameter that either resolves with a status or rejects,
and the platform URL parser (`new URL`) is modelled by a scheme check.
-/

namespace HttpStatus

/-- `type TrafficLightStatus = 'green' | 'orange' | 'red' | 'off'`. -/
inductive TrafficLightStatus where
  | green
  | orange
  | red
  | off
  deriving DecidableEq, Repr

/-- `type StatusCodeCategory = '1xx' | '2xx' | '3xx' | '4xx' | '5xx' | 'invalid'`. -/
inductive StatusCodeCategory where
  | c1xx
  | c2xx
  | c3xx
  | c4xx
  | c5xx
  | invalid
  deriving DecidableEq, Repr

/-- A runtime value the `statusCode` variable can hold after resolution:
a number, or a truthy non-number object inherited from
`Object.prototype` by the phrase-map property access (the declared
TypeScript type `number | null` is not enforced at runtime). -/
inductive JsValue where
  | num (n : Int)
  | obj
  deriving DecidableEq, Repr

/-- `StatusEntry`: `{ code, category, timestamp }` as appended to the history. -/
structure StatusEntry where
  code : JsValue
  category : StatusCodeCategory
  timestamp : Int
  deriving DecidableEq, Repr

/-- `addStatus` from `useStatusHistory`:
`setHistory(prev => [...prev, status].slice(-10))`.
`slice(-10)` keeps the last (at most) 10 elements, which for a list `l`
is `l.drop (l.length - 10)` (truncated subtraction). -/
def addStatus (prev : List StatusEntry) (status : StatusEntry) : List StatusEntry :=
  let l := prev ++ [status]
  l.drop (l.length - 10)

/-- The history that results from a sequence of `addStatus` calls starting
from the initial empty history of `useState<StatusEntry[]>([])`. -/
def historyAfter (xs : List StatusEntry) : List StatusEntry :=
  xs.foldl addStatus []

/-- The static `statusCodeMap` object literal, as an association list in
source order. -/
def statusCodeMap : List (String × Int) :=
  [("continue", 100),
   ("switching protocols", 101),
   ("processing", 102),
   ("early hints", 103),
   ("ok", 200),
   ("created", 201),
   ("accepted", 202),
   ("non-authoritative information", 203),
   ("no content", 204),
   ("reset content", 205),
   ("partial content", 206),
   ("multiple choices", 300),
   ("moved permanently", 301),
   ("found", 302),
   ("see other", 303),
   ("not modified", 304),
   ("temporary redirect", 307),
   ("permanent redirect", 308),
   ("bad request", 400),
   ("unauthorized", 401),
   ("payment required", 402),
   ("forbidden", 403),
   ("not found", 404),
   ("method not allowed", 405),
   ("not acceptable", 406),
   ("request timeout", 408),
   ("conflict", 409),
   ("gone", 410),
   ("internal error", 500),
   ("internal server error", 500),
   ("not implemented", 501),
   ("bad gateway", 502),
   ("service unavailable", 503),
   ("gateway timeout", 504),
   ("http version not supported", 505)]

/-- The all-lowercase property names the object literal inherits from
`Object.prototype`. Since the looked-up key is the lowercased input,
these are the only inherited names reachable: accessing them returns a
truthy non-number (`Object.prototype.constructor` is the `Object`
function, `__proto__` is `Object.prototype` itself). -/
def inheritedProps : List String :=
  ["constructor", "__proto__"]

/-- `statusCodeMap[k]`: JS property access on the object literal — the
own entry when present, otherwise a value inherited from the prototype
chain, otherwise `undefined` (`none`). -/
def mapGet (k : String) : Option JsValue :=
  match statusCodeMap.lookup k with
  | some v => some (.num v)
  | none => if inheritedProps.contains k then some .obj else none

/-- JS `x || null`: a falsy left operand (`undefined` or the number `0`)
yields `null`; objects are always truthy. -/
def orNull : Option JsValue → Option JsValue
  | some (.num v) => if v = 0 then none else some (.num v)
  | some .obj => some .obj
  | none => none

/-- ASCII whitespace, the relevant fragment of the set removed by JS
`String.prototype.trim()`. -/
def isWhitespaceChar (c : Char) : Bool :=
  c == ' ' || c == '\t' || c == '\n' || c == '\r' || c.toNat == 11 || c.toNat == 12

/-- Modelled platform API: JS `s.trim()` — strip leading and trailing
whitespace. -/
def jsTrim (s : String) : String :=
  String.mk (((s.toList.dropWhile isWhitespaceChar).reverse.dropWhile isWhitespaceChar).reverse)

/-- Lowercase one character (ASCII range, the fragment of JS
`toLowerCase()` exercised by the phrase map). -/
def lowerChar (c : Char) : Char :=
  if 65 ≤ c.toNat ∧ c.toNat ≤ 90 then Char.ofNat (c.toNat + 32) else c

/-- Modelled platform API: JS `s.toLowerCase()`. -/
def jsToLower (s : String) : String :=
  String.mk (s.toList.map lowerChar)

/-- `/^\d+$/.test(s)`: `s` is nonempty and consists of ASCII digits only. -/
def testDigits (s : String) : Bool :=
  s ≠ "" && s.toList.all Char.isDigit

/-- `parseInt(s, 10)` on a string of decimal digits. -/
def parseDecimal (s : String) : Int :=
  (s.toList.foldl (fun acc c => acc * 10 + (c.toNat - '0'.toNat)) 0 : Nat)

/-- A character allowed in a URL scheme after the leading letter. -/
def schemeChar (c : Char) : Bool :=
  c.isAlphanum || c == '+' || c == '-' || c == '.'

/-- Modelled platform API: `new URL(s)` (with no base) succeeds exactly
when `s` is an absolute URL, i.e. starts with a scheme — a leading ASCII
letter, then scheme characters, then a colon. Inputs such as `"200"`,
`"ok"` or `"Not Found"` contain no colon and are rejected. -/
def isValidUrl (s : String) : Bool :=
  let l := s.toList
  let scheme := l.takeWhile (fun c => c ≠ ':')
  match scheme with
  | [] => false
  | c :: rest => c.isAlpha && rest.all schemeChar && decide (scheme.length < l.length)

/-- Behaviour of the transport collaborator (`fetch`) for one probe: the
promise either resolves with a response carrying a status, or rejects. -/
inductive Transport where
  | resolves (status : Int)
  | rejects
  deriving DecidableEq, Repr

/-- The `try` block of `urlRequest`: `new URL(input.trim())` throws on a
malformed URL, then `fetch` either resolves (its status is returned and
`setIsUrl(true)` runs) or rejects. An `Except.error` is a thrown
exception reaching the `catch`. -/
def urlRequestTry (input : String) (t : Transport) : Except Unit Int :=
  if isValidUrl (jsTrim input) then
    match t with
    | .resolves status => .ok status
    | .rejects => .error ()
  else
    .error ()

/-- `urlRequest` with its `catch`: any exception is converted to `null`
and the `isUrl` flag is left untouched; on success the status is returned
and the flag is set to `true`. The pair is (returned code, `isUrl` flag
after the call, given its value `b` before). -/
def urlRequest (input : String) (t : Transport) (b : Bool) : Option Int × Bool :=
  match urlRequestTry input t with
  | .ok status => (some status, true)
  | .error _ => (none, b)

/-- Number of outbound `fetch` calls one `urlRequest` invocation makes:
one when `new URL` succeeded, none when it threw first. -/
def urlRequestFetchCalls (input : String) : Nat :=
  if isValidUrl (jsTrim input) then 1 else 0

/-- Outcome of the resolution part of `checkStatusCode` (lines 123–135),
instrumented with the side effects performed: the resolved code, the
`isUrl` flag after resolution, the number of `fetch` calls and the number
of lookups in `statusCodeMap`. -/
structure ResolveResult where
  code : Option JsValue
  isUrl : Bool
  fetchCalls : Nat
  phraseLookups : Nat
  deriving DecidableEq, Repr

/-- The three-strategy resolution of `checkStatusCode`: a pure-digit
input (untrimmed!) is parsed as a base-10 integer and `setIsUrl(false)`
runs; otherwise the URL probe runs, and if it returned `null` the
lowercased-and-trimmed input is looked up in `statusCodeMap` with
`|| null`. `b` is the `isUrl` flag before the call. -/
def resolveCode (inputValue : String) (t : Transport) (b : Bool) : ResolveResult :=
  if testDigits inputValue then
    ⟨some (.num (parseDecimal inputValue)), false, 0, 0⟩
  else
    match urlRequest inputValue t b with
    | (some c, b') => ⟨some (.num c), b', urlRequestFetchCalls inputValue, 0⟩
    | (none, b') => ⟨orNull (mapGet (jsTrim (jsToLower inputValue))), b', urlRequestFetchCalls inputValue, 1⟩

/-- The classification cascade of `checkStatusCode` (lines 141–160): the
`if`/`else if` chain on the resolved code, and the `else` branch for a
`null` code.  For a non-numeric value every range comparison evaluates
to false (JS relational operators on an object yield `NaN` comparisons),
so the cascade falls through to the final `else`.  Returns
(traffic light, category). -/
def classify : Option JsValue → TrafficLightStatus × StatusCodeCategory
  | some (.num code) =>
    if 100 ≤ code ∧ code < 200 then (.green, .c1xx)
    else if 200 ≤ code ∧ code < 300 then (.green, .c2xx)
    else if 300 ≤ code ∧ code < 400 then (.green, .c3xx)
    else if 400 ≤ code ∧ code < 500 then (.red, .c4xx)
    else if 500 ≤ code ∧ code < 600 then (.red, .c5xx)
    else (.orange, .invalid)
  | some .obj => (.orange, .invalid)
  | none => (.orange, .invalid)

/-- The component state touched by `checkStatusCode`. -/
structure CheckerState where
  trafficLightStatus : TrafficLightStatus
  statusCategory : StatusCodeCategory
  isUrl : Bool
  confirmedInput : String
  history : List StatusEntry
  deriving DecidableEq, Repr

/-- The initial render: light off, category `invalid`, `isUrl` false,
empty confirmed input and empty history. -/
def initialState : CheckerState :=
  { trafficLightStatus := .off
    statusCategory := .invalid
    isUrl := false
    confirmedInput := ""
    history := [] }

/-- The per-invocation environment: the transport behaviour and the value
`Date.now()` returns. -/
structure Env where
  transport : Transport
  now : Int

/-- `checkStatusCode`: empty (after trim) input resets the light to off
and the category to `invalid` and returns; otherwise the confirmed input
is recorded, the code is resolved, and if a code was found an entry is
appended to the history — with the `statusCategory` value captured from
the *previous* render — before the classification cascade updates the
light and category. -/
def checkStatusCode (s : CheckerState) (inputValue : String) (env : Env) : CheckerState :=
  if jsTrim inputValue = "" then
    { s with trafficLightStatus := .off, statusCategory := .invalid }
  else
    let s1 := { s with confirmedInput := inputValue }
    let r := resolveCode inputValue env.transport s1.isUrl
    let s2 := { s1 with isUrl := r.isUrl }
    match r.code with
    | some code =>
      let s3 := { s2 with
        history := addStatus s2.history ⟨code, s2.statusCategory, env.now⟩ }
      let lc := classify (some code)
      { s3 with trafficLightStatus := lc.1, statusCategory := lc.2 }
    | none =>
      { s2 with trafficLightStatus := .orange, statusCategory := .invalid }

/-- The render condition of the "Open URL in a new tab" button:
`trafficLightStatus === 'green' && isUrl`. -/
def showOpenUrlButton (s : CheckerState) : Bool :=
  s.trafficLightStatus == .green && s.isUrl

/-- The last (at most) ten elements of a list — the effect of
`slice(-10)`. -/
def lastTen (l : List StatusEntry) : List StatusEntry :=
  l.drop (l.length - 10)

theorem addStatus_eq_lastTen (prev : List StatusEntry) (e : StatusEntry) :
    addStatus prev e = lastTen (prev ++ [e]) := rfl

theorem lastTen_append (l xs : List StatusEntry) :
    lastTen (lastTen l ++ xs) = lastTen (l ++ xs) := by
  unfold lastTen
  rcases le_or_lt l.length 10 with h | h
  · have h0 : l.length - 10 = 0 := by omega
    simp [h0]
  · rw [← List.drop_append_of_le_length (Nat.sub_le l.length 10), List.drop_drop]
    congr 1
    simp only [List.length_drop, List.length_append]
    omega

theorem foldl_addStatus (xs acc : List StatusEntry) :
    xs.foldl addStatus (lastTen acc) = lastTen (acc ++ xs) := by
  induction xs generalizing acc with
  | nil => simp
  | cons x xs ih =>
    rw [List.foldl_cons, addStatus_eq_lastTen, lastTen_append]
    have h := ih (acc ++ [x])
    rw [h]
    simp

/-- C2: for every sequence of appends the history holds at most 10
entries, and they are exactly the most recently appended entries in
their original relative order (the final suffix of the append
sequence). -/
theorem history_bounded_and_recent (xs : List StatusEntry) :
    (historyAfter xs).length ≤ 10 ∧ historyAfter xs = xs.drop (xs.length - 10) := by
  have h : historyAfter xs = lastTen xs := by
    have h0 := foldl_addStatus xs []
    simpa [historyAfter, lastTen] using h0
  constructor
  · rw [h]
    unfold lastTen
    simp only [List.length_drop]
    omega
  · rw [h]
    rfl

/-- C1: classification is total and correct over ranges — every code in
[100,399] is green, every code in [400,599] is red, every other integer
and an absent code classify as `invalid`. -/
theorem classify_total_ranges (c : Int) :
    (100 ≤ c → c ≤ 399 → (classify (some (.num c))).1 = .green)
    ∧ (400 ≤ c → c ≤ 599 → (classify (some (.num c))).1 = .red)
    ∧ ((c < 100 ∨ 599 < c) → (classify (some (.num c))).2 = .invalid)
    ∧ (classify none).2 = .invalid := by
  refine ⟨fun h1 h2 => ?_, fun h1 h2 => ?_, fun h1 => ?_, rfl⟩ <;>
    (simp only [classify]; split_ifs <;> first | rfl | (exfalso; omega))

theorem classify_total_ranges_witness :
    (classify (some (.num 150))).1 = .green ∧ (classify (some (.num 404))).1 = .red
      ∧ (classify (some (.num 9999))).2 = .invalid :=
  ⟨(classify_total_ranges 150).1 (by decide) (by decide),
   (classify_total_ranges 404).2.1 (by decide) (by decide),
   (classify_total_ranges 9999).2.2.1 (Or.inr (by decide))⟩

/-- C5: on empty or whitespace-only input, `checkStatusCode` only turns
the light off and the category to `invalid`; every other field —
history, `isUrl` flag, confirmed input — is left unchanged, and no
resolution is performed. -/
theorem empty_input_resets (s : CheckerState) (inputValue : String) (env : Env)
    (h : jsTrim inputValue = "") :
    checkStatusCode s inputValue env =
      { s with trafficLightStatus := .off, statusCategory := .invalid } := by
  unfold checkStatusCode
  rw [if_pos h]

theorem urlRequest_of_invalid_url (input : String) (t : Transport) (b : Bool)
    (h : isValidUrl (jsTrim input) = false) :
    urlRequest input t b = (none, b) := by
  unfold urlRequest urlRequestTry
  rw [h]
  simp

theorem resolveCode_phrase (input : String) (t : Transport) (b : Bool)
    (hd : testDigits input = false)
    (hu : urlRequest input t b = (none, b)) :
    resolveCode input t b
      = ⟨orNull (mapGet (jsTrim (jsToLower input))), b, urlRequestFetchCalls input, 1⟩ := by
  simp only [resolveCode, hd, Bool.false_eq_true, if_false, hu]

theorem checkStatusCode_of_code_some (s : CheckerState) (inputValue : String) (env : Env)
    (hne : jsTrim inputValue ≠ "") (v : JsValue)
    (hc : (resolveCode inputValue env.transport s.isUrl).code = some v) :
    checkStatusCode s inputValue env =
      { trafficLightStatus := (classify (some v)).1
        statusCategory := (classify (some v)).2
        isUrl := (resolveCode inputValue env.transport s.isUrl).isUrl
        confirmedInput := inputValue
        history := addStatus s.history ⟨v, s.statusCategory, env.now⟩ } := by
  unfold checkStatusCode
  rw [if_neg hne]
  simp only [hc]

theorem checkStatusCode_of_code_none (s : CheckerState) (inputValue : String) (env : Env)
    (hne : jsTrim inputValue ≠ "")
    (hc : (resolveCode inputValue env.transport s.isUrl).code = none) :
    checkStatusCode s inputValue env =
      { s with trafficLightStatus := .orange
               statusCategory := .invalid
               isUrl := (resolveCode inputValue env.transport s.isUrl).isUrl
               confirmedInput := inputValue } := by
  unfold checkStatusCode
  rw [if_neg hne]
  simp only [hc]

/-- C6: a failing URL probe never propagates an exception — the `catch`
converts every throw of the `try` block to a `null` result — and when the
other strategies also fail the check still ends in the displayable
`invalid` category with the orange light. -/
theorem urlRequest_failure_degrades (s : CheckerState) (inputValue : String) (env : Env)
    (b : Bool) (hfail : urlRequestTry inputValue env.transport = .error ()) :
    urlRequest inputValue env.transport b = (none, b)
    ∧ (testDigits inputValue = false →
        orNull (mapGet (jsTrim (jsToLower inputValue))) = none →
        jsTrim inputValue ≠ "" →
        (checkStatusCode s inputValue env).statusCategory = .invalid
        ∧ (checkStatusCode s inputValue env).trafficLightStatus = .orange) := by
  have hu : ∀ b' : Bool, urlRequest inputValue env.transport b' = (none, b') := by
    intro b'
    unfold urlRequest
    rw [hfail]
  refine ⟨hu b, fun hd hp hne => ?_⟩
  have hr : (resolveCode inputValue env.transport s.isUrl).code = none := by
    rw [resolveCode_phrase inputValue env.transport s.isUrl hd (hu s.isUrl)]
    exact hp
  rw [checkStatusCode_of_code_none s inputValue env hne hr]
  exact ⟨rfl, rfl⟩

theorem urlRequest_failure_degrades_witness :
    urlRequest "https://example.com" .rejects false = (none, false)
    ∧ (checkStatusCode initialState "https://example.com" ⟨.rejects, 0⟩).statusCategory
        = .invalid
    ∧ (checkStatusCode initialState "https://example.com" ⟨.rejects, 0⟩).trafficLightStatus
        = .orange := by
  have h := urlRequest_failure_degrades initialState "https://example.com"
    ⟨.rejects, 0⟩ false rfl
  exact ⟨h.1, h.2 (by decide) (by decide) (by decide)⟩

/-- C7 as stated is false: after a successful URL check (flag true), an
invocation whose URL probe fails (transport rejects, the probe yields
absent) leaves the "was URL" flag true, not false. -/
theorem url_flag_counterexample :
    (resolveCode "https://example.com" .rejects true).code = none
    ∧ (checkStatusCode
        (checkStatusCode initialState "https://example.com" ⟨.resolves 200, 0⟩)
        "https://example.com" ⟨.rejects, 1⟩).isUrl = true := by decide

/-- C7 amended: on any URL-probe failure the strategy yields absent and
the `isUrl` flag keeps its previous value (so it stays false whenever it
was false); the flag is true after the call iff the probe succeeded or it
was already true — it is newly set only by a successful probe. -/
theorem url_flag_semantics (input : String) (t : Transport) (b : Bool) :
    (urlRequestTry input t = .error () → urlRequest input t b = (none, b))
    ∧ ((urlRequest input t b).2 = true ↔ (∃ c, urlRequestTry input t = .ok c) ∨ b = true) := by
  constructor
  · intro h
    unfold urlRequest
    rw [h]
  · unfold urlRequest
    cases h : urlRequestTry input t with
    | ok c => simp [h]
    | error e => simp [h]

theorem url_flag_semantics_witness :
    urlRequest "https://example.com" .rejects true = (none, true) :=
  (url_flag_semantics "https://example.com" .rejects true).1 rfl

/-- C8: phrase lookup is invariant under letter case and surrounding
whitespace — `"Not Found"`, `" not found "` and `"NOT FOUND"` all resolve
to 404, for every transport behaviour and prior flag value, because the
input is lowercased and trimmed before the map lookup. -/
theorem phrase_lookup_normalized (t : Transport) (b : Bool) :
    (resolveCode "Not Found" t b).code = some (.num 404)
    ∧ (resolveCode " not found " t b).code = some (.num 404)
    ∧ (resolveCode "NOT FOUND" t b).code = some (.num 404) := by
  refine ⟨?_, ?_, ?_⟩ <;>
    · rw [resolveCode_phrase _ t b (by decide) (urlRequest_of_invalid_url _ t b (by decide))]
      rfl

/-- C3 fails on the code: on a fresh session, checking `"200"` appends a
history entry whose category is the previous render's `statusCategory`
(`invalid` initially) although the classification of code 200 — the one
displayed after the check — is `2xx`. The appended category is stale, not
the classification of the entry's own code. -/
theorem appended_category_is_stale :
    (checkStatusCode initialState "200" ⟨.rejects, 0⟩).history
      = [⟨.num 200, .invalid, 0⟩]
    ∧ (classify (some (.num 200))).2 = .c2xx
    ∧ (checkStatusCode initialState "200" ⟨.rejects, 0⟩).statusCategory = .c2xx := by
  decide

/-- C4 as stated is false: `" 200 "` trims to the pure-digit string
`"200"`, yet resolution does not parse it as a number — the digit test
runs on the untrimmed input, so the check falls through to the URL and
phrase strategies and resolves nothing. -/
theorem trimmed_digits_counterexample :
    testDigits (jsTrim " 200 ") = true
    ∧ (resolveCode " 200 " .rejects false).code = none
    ∧ (checkStatusCode initialState " 200 " ⟨.rejects, 0⟩).statusCategory = .invalid := by
  decide

/-- C4 amended: for every input that itself (untrimmed) matches the
pure-digit pattern, resolution always succeeds with the base-10 value of
the digits, by the numeric strategy alone: no upper bound is enforced, no
fetch happens and no phrase lookup is performed, whatever the transport
would do. -/
theorem digits_resolve_numeric (input : String) (t : Transport) (b : Bool)
    (hd : testDigits input = true) :
    resolveCode input t b = ⟨some (.num (parseDecimal input)), false, 0, 0⟩ := by
  simp [resolveCode, hd]

theorem digits_resolve_numeric_witness :
    resolveCode "200" .rejects false = ⟨some (.num 200), false, 0, 0⟩ := by
  rw [digits_resolve_numeric "200" .rejects false (by decide)]
  rfl

/-- C9: a resolution through the phrase-lookup path (digit test fails,
URL probe fails, phrase found) leaves the `isUrl` flag exactly as it was;
consequently the "Open URL in a new tab" button is rendered after a green
phrase-based result whenever the flag was already true from an earlier
successful URL check. -/
theorem phrase_path_preserves_isUrl (s : CheckerState) (inputValue : String) (env : Env)
    (hne : jsTrim inputValue ≠ "")
    (hd : testDigits inputValue = false)
    (hu : urlRequestTry inputValue env.transport = .error ())
    (c : Int) (hp : orNull (mapGet (jsTrim (jsToLower inputValue))) = some (.num c)) :
    (checkStatusCode s inputValue env).isUrl = s.isUrl
    ∧ showOpenUrlButton (checkStatusCode s inputValue env)
        = ((classify (some (.num c))).1 == .green && s.isUrl) := by
  have hu' : urlRequest inputValue env.transport s.isUrl = (none, s.isUrl) := by
    unfold urlRequest
    rw [hu]
  have hr := resolveCode_phrase inputValue env.transport s.isUrl hd hu'
  have hcode : (resolveCode inputValue env.transport s.isUrl).code = some (.num c) := by
    rw [hr]
    exact hp
  have hflag : (resolveCode inputValue env.transport s.isUrl).isUrl = s.isUrl := by
    rw [hr]
  rw [checkStatusCode_of_code_some s inputValue env hne (.num c) hcode]
  exact ⟨hflag, by simp [showOpenUrlButton, hflag]⟩

/-- The state after checking `"https://example.com"` against a transport
that resolves with status 200: a successful URL probe, flag true. -/
def afterUrlSuccess : CheckerState :=
  checkStatusCode initialState "https://example.com" ⟨.resolves 200, 0⟩

theorem phrase_path_preserves_isUrl_witness :
    ((checkStatusCode afterUrlSuccess "ok" ⟨.rejects, 5⟩).isUrl = afterUrlSuccess.isUrl
      ∧ showOpenUrlButton (checkStatusCode afterUrlSuccess "ok" ⟨.rejects, 5⟩)
          = ((classify (some (.num 200))).1 == .green && afterUrlSuccess.isUrl))
    ∧ afterUrlSuccess.isUrl = true :=
  ⟨phrase_path_preserves_isUrl afterUrlSuccess "ok" ⟨.rejects, 5⟩
      (by decide) (by decide) rfl 200 (by decide),
   by decide⟩

/-- C10 as stated is false of the program: the normalized input
`"constructor"` misses every own entry of the table but hits the
inherited `Object.prototype.constructor`, a truthy non-number, so the
check appends a history entry even though no integer code was resolved
(the resolved value is the non-numeric `.obj` and the displayed
classification is `invalid`). -/
theorem prototype_key_appends_counterexample :
    (resolveCode "constructor" .rejects false).code = some .obj
    ∧ (checkStatusCode initialState "constructor" ⟨.rejects, 3⟩).history
        = [⟨.obj, .invalid, 3⟩]
    ∧ (checkStatusCode initialState "constructor" ⟨.rejects, 3⟩).statusCategory
        = .invalid := by
  decide

/-- C10 amended: for every non-empty input, when resolution produces a
truthy value — an integer code, in-range or not, or one of the two
truthy non-numbers inherited from `Object.prototype` (keys
`"constructor"` and `"__proto__"`) — exactly one entry (that value, the
previous category, the current timestamp) is appended through
`addStatus`; the history is exactly unchanged only when every strategy
yields `null`. -/
theorem history_grows_iff_resolved (s : CheckerState) (inputValue : String) (env : Env)
    (hne : jsTrim inputValue ≠ "") :
    (∀ v : JsValue, (resolveCode inputValue env.transport s.isUrl).code = some v →
        (checkStatusCode s inputValue env).history
          = addStatus s.history ⟨v, s.statusCategory, env.now⟩)
    ∧ ((resolveCode inputValue env.transport s.isUrl).code = none →
        (checkStatusCode s inputValue env).history = s.history) := by
  constructor
  · intro v hc
    rw [checkStatusCode_of_code_some s inputValue env hne v hc]
  · intro hc
    rw [checkStatusCode_of_code_none s inputValue env hne hc]

theorem history_grows_iff_resolved_witness :
    (checkStatusCode initialState "9999" ⟨.rejects, 7⟩).history
      = addStatus initialState.history ⟨.num 9999, initialState.statusCategory, 7⟩
    ∧ (checkStatusCode initialState "constructor" ⟨.rejects, 3⟩).history
      = addStatus initialState.history ⟨.obj, initialState.statusCategory, 3⟩ :=
  ⟨(history_grows_iff_resolved initialState "9999" ⟨.rejects, 7⟩ (by decide)).1
      (.num 9999) (by decide),
   (history_grows_iff_resolved initialState "constructor" ⟨.rejects, 3⟩ (by decide)).1
      .obj (by decide)⟩

theorem empty_input_resets_witness :
    checkStatusCode initialState "   " ⟨.rejects, 0⟩ =
      { initialState with trafficLightStatus := .off, statusCategory := .invalid } :=
  empty_input_resets initialState "   " ⟨.rejects, 0⟩ (by decide)

end HttpStatus
